import Mathlib

/-!
Shallow embedding of the Tame volume limiter (src/tame.py).

The control-loop core is `VolumeLimiter._run` together with the
`AudioController` device methods.  One iteration of the `while` loop is
embedded as the pure function `tick` below; device interaction is made
explicit through `TickInput` (the device volume and meter reading at the
tick, plus success flags for the fallible COM calls — in the source every
device call is wrapped in `try/except`).  Real arithmetic is embedded as
exact rationals.

Instrumentation fields (`wrote`, `peak_reads`, `divisors`, `published`)
record the externally visible actions of the most recent tick: the level
passed to `SetMasterVolumeLevelScalar`, the number of meter reads, the
denominator of every division the tick actually executed, and whether the
UI telemetry fields were republished.  They are logs only and never feed
back into the control decisions.
-/

namespace Tame

/-- `VolumeLimiter` configuration fields (mirrors the `settings`-loaded
attributes used by `_run`).  `leeway_factor` stands for the value
`10 ** (leeway_db / 20)` computed at line 315 of the source; that power is
transcendental, so the embedding carries the already-converted linear
factor (for `leeway_db = 0` it is exactly `1`, and `leeway_db ≥ 0` gives
`leeway_factor ≥ 1`). -/
structure Config where
  volume_cap : ℚ
  attack_time : ℚ
  release_time : ℚ
  hold_time : ℚ
  user_cooldown : ℚ
  leeway_factor : ℚ
  dampening : ℚ
  dampening_speed : ℚ
  voice_mode : Bool := false
  deriving DecidableEq, Repr

/-- `AudioController` state: the cached device volume, the last volume this
program itself set, and the user-override bookkeeping. `user_set_time` is
`None` until the first detected user change (Python initialises it to
`None`). -/
structure Audio where
  cached_volume : ℚ
  last_set_volume : ℚ
  user_set_time : Option ℚ
  user_set_volume : ℚ
  deriving DecidableEq, Repr

/-- Environment of a single tick: the wall-clock time, the device volume a
successful `GetMasterVolumeLevelScalar` would return, the meter value a
successful `GetPeakValue` would return, and whether the volume reads, the
meter reads and the volume write of this tick succeed. -/
structure TickInput where
  now : ℚ
  deviceVolume : ℚ
  meterPeak : ℚ
  volReadOk : Bool
  peakReadOk : Bool
  setOk : Bool
  deriving DecidableEq, Repr

/-- `VolumeLimiter` state plus the modelled device volume and the per-tick
action log. -/
structure LState where
  audio : Audio
  device_volume : ℚ
  is_running : Bool
  original_volume : ℚ
  current_peak : ℚ
  current_volume : ℚ
  is_limiting : Bool
  last_over_threshold_time : ℚ
  time_over_threshold : ℚ
  last_time : ℚ
  ui_peak : ℚ
  ui_volume : ℚ
  -- per-tick action log (reset at the start of every tick)
  wrote : Option ℚ
  peak_reads : ℕ
  divisors : List ℚ
  published : Bool
  deriving DecidableEq, Repr

/-- `AudioController.get_volume` (lines 190–196): on success the read
refreshes `_cached_volume`, on failure the cached value is returned. -/
def get_volume (a : Audio) (readOk : Bool) (deviceVol : ℚ) : Audio × ℚ :=
  if readOk then ({ a with cached_volume := deviceVol }, deviceVol)
  else (a, a.cached_volume)

/-- `AudioController.get_raw_peak` (lines 178–188): the meter value
normalised by the cached volume (`min 1 (peak / vol)` when `vol > 0.01`,
the bare peak otherwise); a failed meter read yields `0.0`.  The second
component logs the denominator of the division when it is executed. -/
def get_raw_peak (a : Audio) (readOk : Bool) (meterPeak : ℚ) : ℚ × List ℚ :=
  if readOk then
    if (1/100 : ℚ) < a.cached_volume then
      (min 1 (meterPeak / a.cached_volume), [a.cached_volume])
    else (meterPeak, [])
  else (0, [])

/-- `AudioController.set_volume` (lines 198–206): the level is clamped to
`[0, 1]`; on a successful device write `_last_set_volume` and
`_cached_volume` become the clamped level.  The second component is the
clamped level handed to the device call. -/
def set_volume (a : Audio) (setOk : Bool) (level : ℚ) : Audio × ℚ :=
  let lvl := max 0 (min 1 level)
  (if setOk then { a with last_set_volume := lvl, cached_volume := lvl } else a, lvl)

/-- `AudioController.check_user_changed` (lines 208–216): reads the volume
and reports a user change when it differs from `_last_set_volume` by more
than `0.01`, rebaselining `_last_set_volume` and recording the time. -/
def check_user_changed (a : Audio) (readOk : Bool) (deviceVol now : ℚ) :
    Audio × Bool :=
  let g := get_volume a readOk deviceVol
  if (1/100 : ℚ) < |g.2 - g.1.last_set_volume| then
    ({ g.1 with user_set_time := some now, user_set_volume := g.2,
                last_set_volume := g.2 }, true)
  else (g.1, false)

/-- `VolumeLimiter._update_release_rate` (lines 262–267): `1/release_time`
when `release_time > 0`, else the fixed fast rate `10.0`; the second
component logs the denominator when the division happens. -/
def release_rate (release_time : ℚ) : ℚ × List ℚ :=
  if 0 < release_time then (1 / release_time, [release_time]) else (10, [])

/-- Line 316: `soft_threshold = volume_cap * leeway_factor`. -/
def soft_threshold (c : Config) : ℚ := c.volume_cap * c.leeway_factor

/-- Lines 330–335: position inside the leeway zone, `1` at or beyond the
soft threshold. -/
def leeway_ratio (c : Config) (po : ℚ) : ℚ :=
  if soft_threshold c ≤ po then 1
  else (po - c.volume_cap) / (soft_threshold c - c.volume_cap)

/-- Lines 339–347: the sustained-peak dampening factor, ramping from `1`
to `dampening` and clamped to `[1, dampening]` (the final `max 1 _` makes
it at least `1` unconditionally). -/
def sustained_factor (c : Config) (time_over : ℚ) : ℚ :=
  let ramp :=
    if (1/1000 : ℚ) < c.dampening_speed then
      min 1 ((time_over - c.attack_time) / c.dampening_speed)
    else 1
  max 1 (min c.dampening (1 + (c.dampening - 1) * ramp))

/-- Lines 328–358: the engaged-limiter target volume — the blend of
`original_volume` and `volume_cap / raw_peak` by the leeway ratio, divided
by the sustained factor and clamped to `[0.01, 1]`.  The second component
logs the denominators of the divisions executed on this path. -/
def limit_target (c : Config) (raw_peak original_volume time_over : ℚ) :
    ℚ × List ℚ :=
  let po := raw_peak * original_volume
  let ratio := leeway_ratio c po
  let sf := sustained_factor c time_over
  let tv := (original_volume * (1 - ratio) + (c.volume_cap / raw_peak) * ratio) / sf
  (max (1/100) (min 1 tv),
   [raw_peak]
     ++ (if soft_threshold c ≤ po then [] else [soft_threshold c - c.volume_cap])
     ++ (if (1/1000 : ℚ) < c.dampening_speed then [c.dampening_speed] else [])
     ++ [sf])

/-- Line 300: `if self.audio.user_set_time and (now - user_set_time) <
user_cooldown`.  Python truthiness: `None` and the float `0.0` are both
falsy, any other float is truthy. -/
def cooldown_active (ust : Option ℚ) (now cooldown : ℚ) : Bool :=
  match ust with
  | none => false
  | some t => decide (t ≠ 0) && decide (now - t < cooldown)

/-- A `self.audio.set_volume(level)` call from `_run`: logs the attempted
(clamped) level and moves the device volume when the write succeeds. -/
def apply_set (s : LState) (setOk : Bool) (level : ℚ) : LState :=
  let r := set_volume s.audio setOk level
  { s with audio := r.1, wrote := some r.2,
           device_volume := if setOk then r.2 else s.device_volume }

/-- Lines 318–360: the over-threshold branch — accumulate
`time_over_threshold`, stamp `last_over_threshold_time`, and once the
attack time is reached engage limiting and write the computed target. -/
def overTick (s : LState) (c : Config) (i : TickInput) (rp dt : ℚ) : LState :=
  let s1 := { s with time_over_threshold := s.time_over_threshold + dt,
                     last_over_threshold_time := i.now }
  if c.attack_time ≤ s1.time_over_threshold then
    let s2 := { s1 with is_limiting := true }
    let tgt := limit_target c rp s2.original_volume s2.time_over_threshold
    apply_set { s2 with divisors := s2.divisors ++ tgt.2 } i.setOk tgt.1
  else s1

/-- Lines 361–381: the under-threshold branch — reset the accumulator and,
while limiting, hold for `hold_time` then ramp back at the release rate,
finishing by writing `original_volume` exactly and clearing
`is_limiting`. -/
def underTick (s : LState) (c : Config) (i : TickInput) (dt : ℚ) : LState :=
  let s1 := { s with time_over_threshold := 0 }
  if s1.is_limiting then
    if c.hold_time < i.now - s1.last_over_threshold_time then
      let g := get_volume s1.audio i.volReadOk s1.device_volume
      let s2 := { s1 with audio := g.1 }
      if g.2 < s2.original_volume - 5/1000 then
        let rr := release_rate c.release_time
        let nv := min (g.2 + rr.1 * dt) s2.original_volume
        apply_set { s2 with divisors := s2.divisors ++ rr.2 } i.setOk nv
      else
        let s3 := apply_set s2 i.setOk s2.original_volume
        { s3 with is_limiting := false }
    else s1
  else s1

/-- Lines 304–381: sampling, threshold test and the two branches. -/
def tickCore (s : LState) (c : Config) (i : TickInput) (dt : ℚ) : LState :=
  let rp := get_raw_peak s.audio i.peakReadOk i.meterPeak
  let s1 := { s with current_peak := rp.1, peak_reads := s.peak_reads + 1,
                     divisors := s.divisors ++ rp.2 }
  let g := get_volume s1.audio i.volReadOk s1.device_volume
  let s2 := { s1 with audio := g.1, current_volume := g.2 }
  if c.volume_cap < rp.1 * s2.original_volume ∧ (1/1000 : ℚ) < rp.1 then
    overTick s2 c i rp.1 dt
  else
    underTick s2 c i dt

/-- Lines 383–385: republish the UI telemetry from fresh device reads. -/
def ui_update (s : LState) (i : TickInput) : LState :=
  let rp := get_raw_peak s.audio i.peakReadOk i.meterPeak
  let g := get_volume s.audio i.volReadOk s.device_volume
  { s with audio := g.1, ui_peak := rp.1, ui_volume := g.2,
           peak_reads := s.peak_reads + 1, divisors := s.divisors ++ rp.2,
           published := true }

/-- Lines 288–385: one enabled loop iteration — timing update, user-change
detection with its unconditional reset, the cooldown gate (which skips
sampling, writes and the telemetry republish), then the core branches and
the telemetry republish. -/
def tickEnabled (s : LState) (c : Config) (i : TickInput) : LState :=
  let dt := i.now - s.last_time
  let s1 := { s with last_time := i.now }
  let chk := check_user_changed s1.audio i.volReadOk i.deviceVolume i.now
  let s2 :=
    if chk.2 then
      { s1 with audio := chk.1, original_volume := chk.1.user_set_volume,
                is_limiting := false, time_over_threshold := 0 }
    else { s1 with audio := chk.1 }
  if cooldown_active s2.audio.user_set_time i.now c.user_cooldown then s2
  else ui_update (tickCore s2 c i dt) i

/-- One iteration of the `_run` loop (lines 282–388).  A disabled
controller only resets `time_over_threshold` (and does not touch
`last_time`, the audio state or the device). -/
def tick (s : LState) (c : Config) (i : TickInput) : LState :=
  let s0 := { s with wrote := none, peak_reads := 0, divisors := [],
                     published := false, device_volume := i.deviceVolume }
  if s.is_running then tickEnabled s0 c i
  else { s0 with time_over_threshold := 0 }

/-- Run the loop over a list of tick times against a device that plays a
constant raw (100%-volume-equivalent) peak `raw`: at each tick the meter
reads `raw` times the current device volume, and all device calls
succeed. -/
def runConstRaw (raw : ℚ) (times : List ℚ) (c : Config) (s : LState) : LState :=
  times.foldl
    (fun st t =>
      tick st c
        { now := t, deviceVolume := st.device_volume,
          meterPeak := raw * st.device_volume,
          volReadOk := true, peakReadOk := true, setOk := true }) s

/-- The end-to-end example configuration: `volume_cap = 0.2`,
`attack_time = 0.05`, `leeway_db = 0` (so `leeway_factor = 10 ^ 0 = 1`),
`dampening = 1.0`, instant dampening ramp. -/
def cfgC1 : Config :=
  { volume_cap := 1/5, attack_time := 1/20, release_time := 1/2,
    hold_time := 3/20, user_cooldown := 2, leeway_factor := 1,
    dampening := 1, dampening_speed := 0 }

/-- Fresh controller state at device volume `1.0` (the constructor reads
the current volume as `original_volume`, `_cached_volume` and
`_last_set_volume`, with `user_set_time = None`). -/
def startState (v : ℚ) : LState :=
  { audio := { cached_volume := v, last_set_volume := v,
               user_set_time := none, user_set_volume := v },
    device_volume := v, is_running := true, original_volume := v,
    current_peak := 0, current_volume := v, is_limiting := false,
    last_over_threshold_time := 0, time_over_threshold := 0,
    last_time := 0, ui_peak := 0, ui_volume := v,
    wrote := none, peak_reads := 0, divisors := [], published := false }

/-- Configuration used to exhibit the leeway-zone behaviour: `3 dB`-style
leeway is idealised to an exact linear factor `2`, no dampening. -/
def cfgC2 : Config :=
  { volume_cap := 1/5, attack_time := 1/20, release_time := 1/2,
    hold_time := 3/20, user_cooldown := 2, leeway_factor := 2,
    dampening := 1, dampening_speed := 0 }

/-- The state of an enabled tick just after its sampling phase
(`check_user_changed` found no change, the volume read refreshed the cache,
the raw peak was sampled), used to decompose a tick into
`ui_update (underTick (midState s i) c i dt) i` on the under-threshold
path. -/
def midState (s : LState) (i : TickInput) : LState :=
  let a1 : Audio := { s.audio with cached_volume := i.deviceVolume }
  let rp := get_raw_peak a1 i.peakReadOk i.meterPeak
  { s with audio := a1, device_volume := i.deviceVolume, last_time := i.now,
           current_peak := rp.1, current_volume := i.deviceVolume,
           wrote := none, peak_reads := 1, divisors := rp.2,
           published := false }

/-- A limiter holding at volume `0.4` below an original volume of `1`,
with the signal quiet since `t = 1 s`: the release scenario. -/
def releaseState : LState :=
  { startState 1 with
      is_limiting := true, last_over_threshold_time := 1, last_time := 2,
      device_volume := 2/5, audio := ⟨2/5, 2/5, none, 1⟩ }

/-! Projection lemmas for the tick phases, shared by the claim proofs. -/

@[simp] lemma apply_set_is_limiting (s : LState) (ok : Bool) (l : ℚ) :
    (apply_set s ok l).is_limiting = s.is_limiting := by
  simp [apply_set]

@[simp] lemma apply_set_tot (s : LState) (ok : Bool) (l : ℚ) :
    (apply_set s ok l).time_over_threshold = s.time_over_threshold := by
  simp [apply_set]

@[simp] lemma apply_set_published (s : LState) (ok : Bool) (l : ℚ) :
    (apply_set s ok l).published = s.published := by
  simp [apply_set]

@[simp] lemma apply_set_peak_reads (s : LState) (ok : Bool) (l : ℚ) :
    (apply_set s ok l).peak_reads = s.peak_reads := by
  simp [apply_set]

@[simp] lemma apply_set_divisors (s : LState) (ok : Bool) (l : ℚ) :
    (apply_set s ok l).divisors = s.divisors := by
  simp [apply_set]

@[simp] lemma apply_set_original (s : LState) (ok : Bool) (l : ℚ) :
    (apply_set s ok l).original_volume = s.original_volume := by
  simp [apply_set]

@[simp] lemma apply_set_wrote (s : LState) (ok : Bool) (l : ℚ) :
    (apply_set s ok l).wrote = some (max 0 (min 1 l)) := by
  simp [apply_set, set_volume]

@[simp] lemma ui_update_is_limiting (s : LState) (i : TickInput) :
    (ui_update s i).is_limiting = s.is_limiting := by
  simp [ui_update]

@[simp] lemma ui_update_tot (s : LState) (i : TickInput) :
    (ui_update s i).time_over_threshold = s.time_over_threshold := by
  simp [ui_update]

@[simp] lemma ui_update_wrote (s : LState) (i : TickInput) :
    (ui_update s i).wrote = s.wrote := by
  simp [ui_update]

@[simp] lemma ui_update_original (s : LState) (i : TickInput) :
    (ui_update s i).original_volume = s.original_volume := by
  simp [ui_update]

@[simp] lemma ui_update_published (s : LState) (i : TickInput) :
    (ui_update s i).published = true := by
  simp [ui_update]

@[simp] lemma ui_update_device (s : LState) (i : TickInput) :
    (ui_update s i).device_volume = s.device_volume := by
  simp [ui_update]

lemma underTick_tot (s : LState) (c : Config) (i : TickInput) (dt : ℚ) :
    (underTick s c i dt).time_over_threshold = 0 := by
  simp only [underTick]
  split_ifs <;> simp

lemma underTick_limiting (s : LState) (c : Config) (i : TickInput) (dt : ℚ) :
    (underTick s c i dt).is_limiting = true → s.is_limiting = true := by
  simp only [underTick]
  split_ifs <;> simp_all

lemma underTick_published (s : LState) (c : Config) (i : TickInput) (dt : ℚ) :
    (underTick s c i dt).published = s.published := by
  simp only [underTick]
  split_ifs <;> simp

lemma overTick_published (s : LState) (c : Config) (i : TickInput)
    (rp dt : ℚ) : (overTick s c i rp dt).published = s.published := by
  simp only [overTick]
  split_ifs <;> simp

lemma tickCore_published (s : LState) (c : Config) (i : TickInput) (dt : ℚ) :
    (tickCore s c i dt).published = s.published := by
  simp only [tickCore]
  split_ifs <;> simp [overTick_published, underTick_published]

lemma get_raw_peak_congr (a b : Audio) (ok : Bool) (m : ℚ)
    (h : a.cached_volume = b.cached_volume) :
    get_raw_peak a ok m = get_raw_peak b ok m := by
  simp [get_raw_peak, h]

lemma apply_set_sync (s : LState) (ok : Bool) (l : ℚ)
    (h : s.audio.cached_volume = s.device_volume) :
    (apply_set s ok l).audio.cached_volume = (apply_set s ok l).device_volume := by
  cases ok <;> simp [apply_set, set_volume, h]

lemma overTick_sync (s : LState) (c : Config) (i : TickInput) (rp dt : ℚ)
    (h : s.audio.cached_volume = s.device_volume) :
    (overTick s c i rp dt).audio.cached_volume
      = (overTick s c i rp dt).device_volume := by
  simp only [overTick]
  split_ifs
  · exact apply_set_sync _ _ _ h
  · exact h

lemma underTick_sync (s : LState) (c : Config) (i : TickInput) (dt : ℚ)
    (hok : i.volReadOk = true)
    (h : s.audio.cached_volume = s.device_volume) :
    (underTick s c i dt).audio.cached_volume
      = (underTick s c i dt).device_volume := by
  simp only [underTick, get_volume, hok, if_true]
  split_ifs
  · exact apply_set_sync _ _ _ rfl
  · exact apply_set_sync _ _ _ rfl
  · exact h
  · exact h

/-- On a tick whose volume reads succeed, after the sampling phase the
cached volume always agrees with the actual device volume. -/
lemma tickCore_sync (s : LState) (c : Config) (i : TickInput) (dt : ℚ)
    (hok : i.volReadOk = true) :
    (tickCore s c i dt).audio.cached_volume
      = (tickCore s c i dt).device_volume := by
  simp only [tickCore, get_volume, hok, if_true]
  split_ifs
  · exact overTick_sync _ _ _ _ _ rfl
  · exact underTick_sync _ _ _ _ hok rfl

lemma ui_update_vol_ok (m : LState) (i : TickInput) (hok : i.volReadOk = true) :
    (ui_update m i).ui_volume = (ui_update m i).device_volume := by
  simp [ui_update, get_volume, hok]

lemma ui_update_peak_eq (m : LState) (i : TickInput)
    (h : m.audio.cached_volume = m.device_volume) :
    (ui_update m i).ui_peak
      = (get_raw_peak (ui_update m i).audio i.peakReadOk i.meterPeak).1 := by
  cases hok : i.volReadOk <;>
    simp [ui_update, get_volume, get_raw_peak, hok, h]

/-- A tick whose meter read fails samples a raw peak of `0`, hence takes
the under-threshold branch: the accumulator is reset and limiting cannot
newly engage. -/
lemma tickCore_peak_fail (s : LState) (c : Config) (i : TickInput) (dt : ℚ)
    (hpk : i.peakReadOk = false) :
    (tickCore s c i dt).time_over_threshold = 0 ∧
    ((tickCore s c i dt).is_limiting = true → s.is_limiting = true) := by
  simp only [tickCore, get_raw_peak, hpk, Bool.false_eq_true, if_false]
  rw [if_neg (by norm_num)]
  exact ⟨underTick_tot _ _ _ _,
    fun h => by simpa using underTick_limiting _ _ _ _ h⟩

lemma release_rate_nonneg (rt : ℚ) : 0 ≤ (release_rate rt).1 := by
  simp only [release_rate]
  split_ifs with h
  · positivity
  · norm_num

/-- An enabled tick with no detected user change, no active cooldown, and
an under-threshold sample decomposes as the under branch applied to the
post-sampling state, followed by the telemetry republish. -/
lemma tick_under_eq (s : LState) (c : Config) (i : TickInput)
    (hrun : s.is_running = true) (hok : i.volReadOk = true)
    (hnochg : ¬ (1/100 : ℚ) < |i.deviceVolume - s.audio.last_set_volume|)
    (hust : s.audio.user_set_time = none)
    (hunder : ¬ (c.volume_cap <
        (get_raw_peak { s.audio with cached_volume := i.deviceVolume }
          i.peakReadOk i.meterPeak).1 * s.original_volume ∧
      (1/1000 : ℚ) <
        (get_raw_peak { s.audio with cached_volume := i.deviceVolume }
          i.peakReadOk i.meterPeak).1)) :
    tick s c i
      = ui_update (underTick (midState s i) c i (i.now - s.last_time)) i := by
  have hchk : check_user_changed s.audio i.volReadOk i.deviceVolume i.now
      = ({ s.audio with cached_volume := i.deviceVolume }, false) := by
    simp only [check_user_changed, get_volume, hok, if_true]
    rw [if_neg hnochg]
  simp only [tick, tickEnabled, hrun, if_true, hchk, Bool.false_eq_true,
    if_false, hust, cooldown_active]
  congr 1
  simp only [hust] at hunder
  simp only [tickCore, get_volume, hok, if_true]
  rw [if_neg hunder]
  congr 1
  simp [midState, hust, hrun]

/-- Lines 366–368: within the hold interval the under branch only resets
the accumulator. -/
lemma underTick_hold (s : LState) (c : Config) (i : TickInput) (dt : ℚ)
    (hlim : s.is_limiting = true)
    (hhold : i.now - s.last_over_threshold_time ≤ c.hold_time) :
    underTick s c i dt = { s with time_over_threshold := 0 } := by
  simp only [underTick, hlim, if_true]
  rw [if_neg (not_lt.mpr hhold)]

/-- Lines 373–377: past the hold interval and still more than `0.005`
below the original volume, the under branch writes the released volume
`min (current + releaseRate*dt) original` and keeps limiting. -/
lemma underTick_release_far (s : LState) (c : Config) (i : TickInput) (dt : ℚ)
    (hlim : s.is_limiting = true) (hok : i.volReadOk = true)
    (hhold : c.hold_time < i.now - s.last_over_threshold_time)
    (hfar : s.device_volume < s.original_volume - 5/1000)
    (hdv : 0 ≤ s.device_volume) (horig1 : s.original_volume ≤ 1)
    (hdt : 0 ≤ dt) :
    (underTick s c i dt).wrote
      = some (min (s.device_volume + (release_rate c.release_time).1 * dt)
          s.original_volume) ∧
    (underTick s c i dt).is_limiting = true ∧
    (underTick s c i dt).time_over_threshold = 0 := by
  have hrr := release_rate_nonneg c.release_time
  have hnv0 : 0 ≤ min (s.device_volume + (release_rate c.release_time).1 * dt)
      s.original_volume := le_min (by positivity) (by linarith)
  have hnv1 : min (s.device_volume + (release_rate c.release_time).1 * dt)
      s.original_volume ≤ 1 := le_trans (min_le_right _ _) horig1
  simp only [underTick, hlim, if_true]
  rw [if_pos (by simpa using hhold)]
  simp only [get_volume, hok, if_true]
  rw [if_pos (by simpa using hfar)]
  refine ⟨?_, by simp, by simp⟩
  rw [apply_set_wrote]
  congr 1
  rw [min_eq_right hnv1, max_eq_right hnv0]

/-- Lines 378–381: past the hold interval and within `0.005` of the
original volume, the under branch writes the original volume exactly and
clears `is_limiting`. -/
lemma underTick_release_done (s : LState) (c : Config) (i : TickInput) (dt : ℚ)
    (hlim : s.is_limiting = true) (hok : i.volReadOk = true)
    (hhold : c.hold_time < i.now - s.last_over_threshold_time)
    (hnear : ¬ s.device_volume < s.original_volume - 5/1000)
    (horig0 : 0 ≤ s.original_volume) (horig1 : s.original_volume ≤ 1) :
    (underTick s c i dt).wrote = some s.original_volume ∧
    (underTick s c i dt).is_limiting = false ∧
    (underTick s c i dt).time_over_threshold = 0 := by
  simp only [underTick, hlim, if_true]
  rw [if_pos (by simpa using hhold)]
  simp only [get_volume, hok, if_true]
  rw [if_neg (by simpa using hnear)]
  refine ⟨?_, by simp, by simp⟩
  simp only [apply_set, set_volume]
  congr 2
  rw [min_eq_right horig1, max_eq_right horig0]

lemma sustained_factor_ge_one (c : Config) (t : ℚ) :
    (1 : ℚ) ≤ sustained_factor c t :=
  le_max_left _ _

/-- The final clamp to `[0.01, 1]` is monotone. -/
lemma clamp_mono {a b : ℚ} (h : a ≤ b) :
    max (1/100) (min 1 a) ≤ max (1/100) (min 1 b) :=
  max_le_max le_rfl (min_le_min le_rfl h)

lemma get_raw_peak_div (a : Audio) (ok : Bool) (m : ℚ) :
    ∀ q ∈ (get_raw_peak a ok m).2, 0 < q := by
  intro q hq
  simp only [get_raw_peak] at hq
  split_ifs at hq with h1 h2
  · simp only [List.mem_singleton] at hq
    subst hq
    linarith
  · simp at hq
  · simp at hq

lemma release_rate_div (rt : ℚ) : ∀ q ∈ (release_rate rt).2, 0 < q := by
  intro q hq
  simp only [release_rate] at hq
  split_ifs at hq with h
  · simp only [List.mem_singleton] at hq
    subst hq
    exact h
  · simp at hq

/-- Every division on the engaged-limiter path has a positive denominator:
the raw peak (guarded by `> 0.001`), the leeway span (positive because the
leeway branch requires `volume_cap < potential_output < soft_threshold`),
the dampening speed (guarded by `> 0.001`), and the sustained factor
(clamped to at least `1`). -/
lemma limit_target_div (c : Config) (rp v t : ℚ)
    (hover : c.volume_cap < rp * v) (hrp : (1/1000 : ℚ) < rp) :
    ∀ q ∈ (limit_target c rp v t).2, 0 < q := by
  intro q hq
  simp only [limit_target, List.append_assoc, List.mem_append,
    List.mem_singleton, List.mem_cons, List.not_mem_nil, or_false] at hq
  rcases hq with hq | hq | hq | hq
  · subst hq; linarith
  · split_ifs at hq with h
    · simp at hq
    · simp only [List.mem_singleton] at hq
      subst hq
      have hz : rp * v < soft_threshold c := lt_of_not_le h
      linarith
  · split_ifs at hq with h
    · simp only [List.mem_singleton] at hq
      subst hq
      linarith
    · simp at hq
  · subst hq
    exact lt_of_lt_of_le one_pos (sustained_factor_ge_one c t)

lemma overTick_div (s : LState) (c : Config) (i : TickInput) (rp dt : ℚ)
    (hdiv : ∀ q ∈ s.divisors, 0 < q)
    (hover : c.volume_cap < rp * s.original_volume)
    (hrp : (1/1000 : ℚ) < rp) :
    ∀ q ∈ (overTick s c i rp dt).divisors, 0 < q := by
  intro q hq
  simp only [overTick] at hq
  split_ifs at hq with h
  · rw [apply_set_divisors] at hq
    simp only [List.mem_append] at hq
    rcases hq with hq | hq
    · exact hdiv q (by simpa using hq)
    · exact limit_target_div c rp s.original_volume _ hover hrp q (by simpa using hq)
  · exact hdiv q (by simpa using hq)

lemma underTick_div (s : LState) (c : Config) (i : TickInput) (dt : ℚ)
    (hdiv : ∀ q ∈ s.divisors, 0 < q) :
    ∀ q ∈ (underTick s c i dt).divisors, 0 < q := by
  intro q hq
  simp only [underTick] at hq
  split_ifs at hq
  · rw [apply_set_divisors] at hq
    simp only [List.mem_append] at hq
    rcases hq with hq | hq
    · exact hdiv q (by simpa using hq)
    · exact release_rate_div c.release_time q (by simpa using hq)
  · rw [apply_set_divisors] at hq
    exact hdiv q (by simpa using hq)
  · exact hdiv q (by simpa using hq)
  · exact hdiv q (by simpa using hq)

lemma tickCore_div (s : LState) (c : Config) (i : TickInput) (dt : ℚ)
    (hdiv : ∀ q ∈ s.divisors, 0 < q) :
    ∀ q ∈ (tickCore s c i dt).divisors, 0 < q := by
  intro q hq
  simp only [tickCore] at hq
  have hbase : ∀ r ∈ s.divisors ++ (get_raw_peak s.audio i.peakReadOk i.meterPeak).2,
      0 < r := by
    intro r hr
    rcases List.mem_append.mp hr with hr | hr
    · exact hdiv r hr
    · exact get_raw_peak_div _ _ _ r hr
  split_ifs at hq with h
  · exact overTick_div _ c i _ dt (by simpa using hbase) (by simpa using h.1)
      h.2 q hq
  · exact underTick_div _ c i dt (by simpa using hbase) q hq

lemma ui_update_div (s : LState) (i : TickInput)
    (hdiv : ∀ q ∈ s.divisors, 0 < q) :
    ∀ q ∈ (ui_update s i).divisors, 0 < q := by
  intro q hq
  simp only [ui_update] at hq
  rcases List.mem_append.mp (by simpa using hq) with hq | hq
  · exact hdiv q hq
  · exact get_raw_peak_div _ _ _ q hq


set_option maxHeartbeats 2000000 in
/-- C1: end-to-end engagement example.  With `volumeCap = 0.2`,
`attackTime = 0.05`, `leewayDb = 0` (`leeway_factor = 1`), `dampening = 1`,
`originalVolume = 1` and a constant raw peak of `0.5` fed to ticks over
`0.1 s` (ticks at `t = 0.025, 0.05, 0.075, 0.1`): after the tick at
`t = 0.05 s` the limiter is engaged and the volume written to the device is
`0.4 = 0.2 / 0.5`, within `0.01` of the predicted `0.4`; it stays engaged
at device volume `0.4` through `t = 0.1 s`. -/
theorem C1_end_to_end :
    (runConstRaw (1/2) [1/40, 1/20] cfgC1 (startState 1)).is_limiting = true ∧
    (runConstRaw (1/2) [1/40, 1/20] cfgC1 (startState 1)).wrote = some (2/5) ∧
    |(2/5 : ℚ) - 2/5| ≤ 1/100 ∧
    (runConstRaw (1/2) [1/40, 1/20, 3/40, 1/10] cfgC1 (startState 1)).is_limiting
      = true ∧
    (runConstRaw (1/2) [1/40, 1/20, 3/40, 1/10] cfgC1
        (startState 1)).device_volume = 2/5 := by
  refine ⟨?_, ?_, by norm_num, ?_, ?_⟩ <;>
    norm_num [runConstRaw, tick, tickEnabled, tickCore, overTick, underTick,
      ui_update, apply_set, check_user_changed, get_volume, get_raw_peak,
      set_volume, release_rate, limit_target, leeway_ratio, sustained_factor,
      soft_threshold, cooldown_active, cfgC1, startState, List.foldl]

/-- C2 counterexample: with a fixed raw peak of `0.5`, cap `0.2` and leeway
factor `2` (soft threshold `0.4`), original volumes `0.42` and `0.6` give
potential outputs `0.21 < 0.3`, both over the cap, yet the larger potential
output yields the strictly larger target volume (`0.5 > 0.419`): the
engaged target is not non-increasing in `potentialOutput` at fixed
`rawPeak`. -/
theorem C2_counterexample :
    cfgC2.volume_cap < (1/2 : ℚ) * (21/50) ∧
    (1/2 : ℚ) * (21/50) < (1/2) * (3/5) ∧
    ¬ (limit_target cfgC2 (1/2) (3/5) (1/20)).1 ≤ (limit_target cfgC2 (1/2) (21/50) (1/20)).1 := by
  refine ⟨by norm_num [cfgC2], by norm_num, ?_⟩
  norm_num [limit_target, leeway_ratio, sustained_factor, soft_threshold, cfgC2]

/-- C9: self-writes are never flagged as user overrides, and detection is
one-shot.  A successful `set_volume` records the clamped written level in
`_last_set_volume`; a `check_user_changed` right after it, observing a
device volume within the `0.01` noise threshold of that record, returns
`False`; and once `check_user_changed` has returned `True` it rebaselines
`_last_set_volume` to the observed volume, so a second call that observes
the same device volume returns `False`. -/
theorem C9_self_write_one_shot (a : Audio) (level dv now now' : ℚ) :
    (set_volume a true level).1.last_set_volume = max 0 (min 1 level) ∧
    (|dv - (set_volume a true level).1.last_set_volume| ≤ 1/100 →
      (check_user_changed (set_volume a true level).1 true dv now).2 = false) ∧
    ((check_user_changed a true dv now).2 = true →
      (check_user_changed (check_user_changed a true dv now).1 true dv now').2
        = false) := by
  refine ⟨rfl, ?_, ?_⟩
  · intro h
    simp only [check_user_changed, get_volume, if_true, set_volume] at h ⊢
    rw [if_neg]
    exact not_lt.mpr h
  · intro h
    simp only [check_user_changed, get_volume, if_true] at h ⊢
    by_cases hc : (1/100 : ℚ) < |dv - a.last_set_volume|
    · rw [if_pos hc]
      norm_num
    · rw [if_neg hc] at h
      simp at h

/-- C9 witness: instantiated at a freshly-set controller (`level = 0.4`,
device still at `0.4`) and at a detected change from `1` to `0.5`. -/
theorem C9_self_write_one_shot_witness :
    (set_volume ⟨1, 1, none, 1⟩ true (2/5)).1.last_set_volume
        = max 0 (min 1 (2/5)) ∧
    (check_user_changed (set_volume ⟨1, 1, none, 1⟩ true (2/5)).1 true
        (2/5) 3).2 = false ∧
    (check_user_changed (⟨1, 1, none, 1⟩ : Audio) true (1/2) 3).2 = true ∧
    (check_user_changed
        (check_user_changed (⟨1, 1, none, 1⟩ : Audio) true (1/2) 3).1 true
        (1/2) 4).2 = false :=
  ⟨(C9_self_write_one_shot ⟨1, 1, none, 1⟩ (2/5) (2/5) 3 4).1,
   (C9_self_write_one_shot ⟨1, 1, none, 1⟩ (2/5) (2/5) 3 4).2.1
     (by norm_num [set_volume]),
   by norm_num [check_user_changed, get_volume, abs_of_nonneg],
   (C9_self_write_one_shot ⟨1, 1, none, 1⟩ (1/2) (1/2) 3 4).2.2
     (by norm_num [check_user_changed, get_volume, abs_of_nonneg])⟩

/-- C2 as amended: for a fixed `originalVolume` and configuration, once
over threshold the engaged target volume is monotonically non-increasing
in the raw peak (equivalently, in `potentialOutput` varied through
`rawPeak`): a louder raw peak never yields a louder target. -/
theorem C2_target_antitone_in_peak (c : Config) (v p1 p2 t : ℚ)
    (hcap : 0 < c.volume_cap) (hp1 : (1/1000 : ℚ) < p1) (h12 : p1 ≤ p2)
    (hover : c.volume_cap < p1 * v) :
    (limit_target c p2 v t).1 ≤ (limit_target c p1 v t).1 := by
  have hp1p : (0:ℚ) < p1 := by linarith
  have hp2p : (0:ℚ) < p2 := by linarith
  have hv : (0:ℚ) < v := by nlinarith
  have hover2 : c.volume_cap < p2 * v := by nlinarith
  have hsf : (0:ℚ) < sustained_factor c t :=
    lt_of_lt_of_le one_pos (sustained_factor_ge_one c t)
  have hpo12 : p1 * v ≤ p2 * v := mul_le_mul_of_nonneg_right h12 hv.le
  simp only [limit_target]
  apply clamp_mono
  rw [div_le_div_iff_of_pos_right hsf]
  by_cases hs1 : soft_threshold c ≤ p1 * v
  · have hs2 : soft_threshold c ≤ p2 * v := le_trans hs1 hpo12
    simp only [leeway_ratio, if_pos hs1, if_pos hs2]
    rw [show v * (1 - (1:ℚ)) + c.volume_cap / p2 * 1 = c.volume_cap / p2 by ring,
      show v * (1 - (1:ℚ)) + c.volume_cap / p1 * 1 = c.volume_cap / p1 by ring]
    rw [div_le_div_iff₀ hp2p hp1p]
    nlinarith
  · have hzone1 : p1 * v < soft_threshold c := lt_of_not_le hs1
    have hD : (0:ℚ) < soft_threshold c - c.volume_cap := by linarith
    have hrw1 : v * (1 - (p1 * v - c.volume_cap) / (soft_threshold c - c.volume_cap))
        + c.volume_cap / p1 * ((p1 * v - c.volume_cap) / (soft_threshold c - c.volume_cap))
        = (p1 * v * (soft_threshold c - p1 * v)
            + c.volume_cap * (p1 * v - c.volume_cap))
          / (p1 * (soft_threshold c - c.volume_cap)) := by
      field_simp
      ring
    by_cases hs2 : soft_threshold c ≤ p2 * v
    · simp only [leeway_ratio, if_neg hs1, if_pos hs2]
      rw [show v * (1 - (1:ℚ)) + c.volume_cap / p2 * 1 = c.volume_cap / p2 by ring]
      rw [hrw1, div_le_div_iff₀ hp2p (by positivity)]
      nlinarith [mul_nonneg (mul_nonneg (sub_nonneg.mpr
          (by nlinarith : c.volume_cap * p1 ≤ p2 * (p1 * v)))
          (sub_nonneg.mpr hzone1.le)) (le_refl (1:ℚ)),
        mul_nonneg (mul_nonneg hcap.le (sub_nonneg.mpr h12))
          (sub_nonneg.mpr hover.le)]
    · have hzone2 : p2 * v < soft_threshold c := lt_of_not_le hs2
      have hrw2 : v * (1 - (p2 * v - c.volume_cap) / (soft_threshold c - c.volume_cap))
          + c.volume_cap / p2 * ((p2 * v - c.volume_cap) / (soft_threshold c - c.volume_cap))
          = (p2 * v * (soft_threshold c - p2 * v)
              + c.volume_cap * (p2 * v - c.volume_cap))
            / (p2 * (soft_threshold c - c.volume_cap)) := by
        field_simp
        ring
      simp only [leeway_ratio, if_neg hs1, if_neg hs2]
      rw [hrw1, hrw2, div_le_div_iff₀ (by positivity) (by positivity)]
      have hsq : c.volume_cap * c.volume_cap < (p1 * v) * (p2 * v) :=
        mul_lt_mul'' hover hover2 hcap.le hcap.le
      nlinarith [mul_nonneg (sub_nonneg.mpr h12)
        (sub_nonneg.mpr hsq.le)]

/-- C2 witness: at fixed original volume `1`, raw peaks `0.5 ≤ 1` both put
the signal over the `0.2` cap, and the louder peak's target is no
louder. -/
theorem C2_target_antitone_in_peak_witness :
    (0 : ℚ) < cfgC2.volume_cap ∧ (1/1000 : ℚ) < 1/2 ∧ ((1:ℚ)/2 ≤ 1) ∧
    cfgC2.volume_cap < (1/2 : ℚ) * 1 ∧
    (limit_target cfgC2 1 1 (1/20)).1 ≤ (limit_target cfgC2 (1/2) 1 (1/20)).1 :=
  ⟨by norm_num [cfgC2], by norm_num, by norm_num, by norm_num [cfgC2],
   C2_target_antitone_in_peak cfgC2 1 (1/2) 1 (1/20) (by norm_num [cfgC2])
     (by norm_num) (by norm_num) (by norm_num [cfgC2])⟩

/-- C6: division safety.  Every division actually executed by a tick is
logged with its denominator in `divisors`, and for every state,
configuration and input all logged denominators are strictly positive:
`1/release_time` only happens when `release_time > 0` (else the fixed rate
`10.0`), `volume_cap/raw_peak` only under the `raw_peak > 0.001` guard,
the leeway-span division only when `volume_cap < potentialOutput <
softThreshold` (a positive span), the dampening ramp only when
`dampening_speed > 0.001`, the sustained-factor division only after the
clamp to `≥ 1`, and the peak normalisation only when the cached volume
exceeds `0.01`. -/
theorem C6_division_safety (s : LState) (c : Config) (i : TickInput) :
    ∀ q ∈ (tick s c i).divisors, 0 < q := by
  intro q hq
  by_cases hrun : s.is_running
  · simp only [tick, tickEnabled, hrun, if_true] at hq
    split_ifs at hq with h1 h2 h3
    · simp at hq
    · exact ui_update_div _ _ (tickCore_div _ _ _ _ (by simp)) q hq
    · simp at hq
    · exact ui_update_div _ _ (tickCore_div _ _ _ _ (by simp)) q hq
  · have hrun' : s.is_running = false := by simpa using hrun
    simp [tick, hrun'] at hq

/-- C6 witness: a concrete enabled tick executes the peak-normalisation
division twice with the positive denominator `1`. -/
theorem C6_division_safety_witness :
    (1 : ℚ) ∈ (tick (startState 1) cfgC1 ⟨1/40, 1, 1/2, true, true, true⟩).divisors ∧
    (0 : ℚ) < 1 := by
  have hmem : (1 : ℚ) ∈ (tick (startState 1) cfgC1
      ⟨1/40, 1, 1/2, true, true, true⟩).divisors := by
    norm_num [tick, tickEnabled, tickCore, ui_update, check_user_changed,
      get_volume, get_raw_peak, cooldown_active, underTick, overTick,
      apply_set, set_volume, startState, cfgC1, min_def]
  exact ⟨hmem, C6_division_safety (startState 1) cfgC1
    ⟨1/40, 1, 1/2, true, true, true⟩ 1 hmem⟩

/-- C3: user override precedence.  (1) On a tick whose volume read
succeeds and observes a device volume differing from `_last_set_volume` by
more than `0.01`, the tick rebaselines `original_volume` to the observed
volume, clears `is_limiting`, zeroes `time_over_threshold`, records the
override timestamp, and (the override time being the tick time, hence
inside a positive cooldown) performs no peak read and no volume write.
(2) On every tick within `user_cooldown` seconds of a recorded override,
no peak read and no volume write happens, whatever the signal does.
(Timestamps are positive and the cooldown is positive: Python treats a
`0.0` timestamp as falsy, and a zero cooldown makes the window empty.) -/
theorem C3_user_override :
    (∀ (s : LState) (c : Config) (i : TickInput),
      s.is_running = true → i.volReadOk = true →
      (1/100 : ℚ) < |i.deviceVolume - s.audio.last_set_volume| →
      0 < i.now → 0 < c.user_cooldown →
      (tick s c i).original_volume = i.deviceVolume ∧
      (tick s c i).is_limiting = false ∧
      (tick s c i).time_over_threshold = 0 ∧
      (tick s c i).audio.user_set_time = some i.now ∧
      (tick s c i).wrote = none ∧ (tick s c i).peak_reads = 0) ∧
    (∀ (s : LState) (c : Config) (i : TickInput) (t : ℚ),
      s.audio.user_set_time = some t → t ≠ 0 →
      i.now - t < c.user_cooldown → 0 < i.now → 0 < c.user_cooldown →
      (tick s c i).wrote = none ∧ (tick s c i).peak_reads = 0) := by
  constructor
  · intro s c i hrun hok hchg hnow hcd
    simp only [tick, tickEnabled, check_user_changed, get_volume, hrun, hok,
      if_true, cooldown_active]
    rw [if_pos hchg]
    simp [cooldown_active, hnow.ne', hcd]
  · intro s c i t hust ht hwin hnow hcd
    by_cases hrun : s.is_running
    · simp only [tick, tickEnabled, check_user_changed, get_volume, hrun,
        if_true]
      split_ifs with h1 h2 h3 h4 h5 <;>
        simp_all [cooldown_active, hnow.ne', hust, ht, hwin]
    · simp only [tick, Bool.not_eq_true] at hrun ⊢
      simp [hrun]

/-- C3 witness: a detected jump of the device volume from `1` to `2`…
(clamping is the device's business; the detection only compares numbers)
at `t = 3 s`, and a cooldown-gated tick one second after an override with
a `2 s` cooldown. -/
theorem C3_user_override_witness :
    ((tick (startState 1) cfgC1 ⟨3, 2, 0, true, true, true⟩).original_volume
        = (2 : ℚ) ∧
      (tick (startState 1) cfgC1 ⟨3, 2, 0, true, true, true⟩).is_limiting
        = false ∧
      (tick (startState 1) cfgC1 ⟨3, 2, 0, true, true, true⟩).time_over_threshold
        = 0 ∧
      (tick (startState 1) cfgC1 ⟨3, 2, 0, true, true, true⟩).audio.user_set_time
        = some 3 ∧
      (tick (startState 1) cfgC1 ⟨3, 2, 0, true, true, true⟩).wrote = none ∧
      (tick (startState 1) cfgC1 ⟨3, 2, 0, true, true, true⟩).peak_reads = 0) ∧
    ((tick { startState 1 with audio := ⟨1, 1, some 3, 1⟩ } cfgC1
          ⟨4, 1, 1, true, true, true⟩).wrote = none ∧
      (tick { startState 1 with audio := ⟨1, 1, some 3, 1⟩ } cfgC1
          ⟨4, 1, 1, true, true, true⟩).peak_reads = 0) :=
  ⟨C3_user_override.1 (startState 1) cfgC1 ⟨3, 2, 0, true, true, true⟩
      (by norm_num [startState]) rfl
      (by norm_num [startState, abs_of_nonneg]) (by norm_num)
      (by norm_num [cfgC1]),
   C3_user_override.2 { startState 1 with audio := ⟨1, 1, some 3, 1⟩ } cfgC1
      ⟨4, 1, 1, true, true, true⟩ 3 rfl (by norm_num)
      (by norm_num [cfgC1]) (by norm_num) (by norm_num [cfgC1])⟩

/-- C5: device-failure neutrality.  The tick is a total function (the
embedding of the `try/except` bodies), a failed meter read substitutes a
raw peak of `0`, and a failed volume read returns the cached volume; since
`0 ≤ 0.001`, a tick whose peak read fails takes the under-threshold
branch, resets `time_over_threshold`, and never newly engages limiting
(stated for enabled ticks outside a user-override cooldown — cooldown
ticks read no peak at all). -/
theorem C5_peak_failure_neutral :
    (∀ (s : LState) (c : Config) (i : TickInput),
      i.peakReadOk = false → s.is_running = true →
      s.audio.user_set_time = none →
      (tick s c i).time_over_threshold = 0 ∧
      ((tick s c i).is_limiting = true → s.is_limiting = true)) ∧
    (∀ (a : Audio) (m : ℚ), (get_raw_peak a false m).1 = 0) ∧
    (∀ (a : Audio) (dv : ℚ), (get_volume a false dv).2 = a.cached_volume) := by
  refine ⟨?_, fun a m => rfl, fun a dv => rfl⟩
  intro s c i hpk hrun hust
  simp only [tick, tickEnabled, hrun, if_true]
  by_cases hchg : (check_user_changed s.audio i.volReadOk i.deviceVolume i.now).2
  · simp only [hchg, if_true]
    split_ifs with hcd
    · simp
    · refine ⟨by rw [ui_update_tot]; exact (tickCore_peak_fail _ _ _ _ hpk).1, ?_⟩
      intro h
      rw [ui_update_is_limiting] at h
      have h2 := (tickCore_peak_fail _ _ _ _ hpk).2 h
      simp at h2
  · have hc2 : (check_user_changed s.audio i.volReadOk i.deviceVolume i.now).2
        = false := by simpa using hchg
    have huser : (check_user_changed s.audio i.volReadOk i.deviceVolume
        i.now).1.user_set_time = none := by
      simp only [check_user_changed, get_volume] at hc2 ⊢
      split_ifs at hc2 ⊢ <;> simp_all
    simp only [hc2, Bool.false_eq_true, if_false]
    split_ifs with hcd
    · exfalso
      simp [huser, cooldown_active] at hcd
    · refine ⟨by rw [ui_update_tot]; exact (tickCore_peak_fail _ _ _ _ hpk).1, ?_⟩
      intro h
      rw [ui_update_is_limiting] at h
      have h2 := (tickCore_peak_fail _ _ _ _ hpk).2 h
      simpa using h2

/-- C5 witness: a mid-attack state (`time_over_threshold = 0.03`) whose
meter read fails: the accumulator is cleared and limiting stays off. -/
theorem C5_peak_failure_neutral_witness :
    ((tick { startState 1 with time_over_threshold := 3/100 } cfgC1
        ⟨1/40, 1, 1, true, false, true⟩).time_over_threshold = 0 ∧
      ((tick { startState 1 with time_over_threshold := 3/100 } cfgC1
          ⟨1/40, 1, 1, true, false, true⟩).is_limiting = true →
        ({ startState 1 with time_over_threshold := 3/100 }
            : LState).is_limiting = true)) ∧
    (get_raw_peak ⟨1, 1, none, 1⟩ false (1/2)).1 = 0 ∧
    (get_volume ⟨1, 1, none, 1⟩ false (1/2)).2
      = (⟨1, 1, none, 1⟩ : Audio).cached_volume :=
  ⟨C5_peak_failure_neutral.1 { startState 1 with time_over_threshold := 3/100 }
      cfgC1 ⟨1/40, 1, 1, true, false, true⟩ rfl (by norm_num [startState])
      (by norm_num [startState]),
   C5_peak_failure_neutral.2.1 ⟨1, 1, none, 1⟩ (1/2),
   C5_peak_failure_neutral.2.2 ⟨1, 1, none, 1⟩ (1/2)⟩

/-- C7 counterexample: a cooldown-gated tick does not republish telemetry.
One second after a user override (cooldown `2 s`), with the meter now
silent (`meterPeak = 0`, so the current raw peak is `0`), the tick performs
no meter read and leaves `ui_peak` at its stale value `0.9`, which differs
from the current raw peak — the spec's "regardless of branch taken,
republish" fails on the cooldown branch (and likewise on the disabled
branch). -/
theorem C7_counterexample :
    (tick { startState 1 with
        audio := ⟨1, 1, some 3, 1⟩, ui_peak := 9/10 } cfgC1
        ⟨4, 1, 0, true, true, true⟩).published = false ∧
    (tick { startState 1 with
        audio := ⟨1, 1, some 3, 1⟩, ui_peak := 9/10 } cfgC1
        ⟨4, 1, 0, true, true, true⟩).peak_reads = 0 ∧
    (tick { startState 1 with
        audio := ⟨1, 1, some 3, 1⟩, ui_peak := 9/10 } cfgC1
        ⟨4, 1, 0, true, true, true⟩).ui_peak = 9/10 ∧
    (get_raw_peak (tick { startState 1 with
        audio := ⟨1, 1, some 3, 1⟩, ui_peak := 9/10 } cfgC1
        ⟨4, 1, 0, true, true, true⟩).audio true 0).1 = 0 ∧
    (tick { startState 1 with
        audio := ⟨1, 1, some 3, 1⟩, ui_peak := 9/10 } cfgC1
        ⟨4, 1, 0, true, true, true⟩).ui_peak
      ≠ (get_raw_peak (tick { startState 1 with
          audio := ⟨1, 1, some 3, 1⟩, ui_peak := 9/10 } cfgC1
          ⟨4, 1, 0, true, true, true⟩).audio true 0).1 := by
  norm_num [tick, tickEnabled, check_user_changed, get_volume,
    cooldown_active, get_raw_peak, startState, cfgC1]

/-- C7 as amended: telemetry is republished exactly on the ticks that pass
the disabled and cooldown gates.  A gated tick leaves the telemetry
snapshot (`ui_peak`, `ui_volume`) unchanged and reads no peak; a
republishing tick ends with `ui_volume` equal to the device volume (when
the volume reads succeed) and `ui_peak` equal to the raw peak computed
from the tick's meter reading and the end-of-tick audio state. -/
theorem C7_telemetry_gates (s : LState) (c : Config) (i : TickInput) :
    ((tick s c i).published =
      (s.is_running &&
        !cooldown_active
          ((check_user_changed s.audio i.volReadOk i.deviceVolume
              i.now).1.user_set_time) i.now c.user_cooldown)) ∧
    ((tick s c i).published = false →
      (tick s c i).ui_peak = s.ui_peak ∧
      (tick s c i).ui_volume = s.ui_volume ∧
      (tick s c i).peak_reads = 0) ∧
    ((tick s c i).published = true → i.volReadOk = true →
      (tick s c i).ui_volume = (tick s c i).device_volume ∧
      (tick s c i).ui_peak
        = (get_raw_peak (tick s c i).audio i.peakReadOk i.meterPeak).1) := by
  by_cases hrun : s.is_running
  · simp only [tick, tickEnabled, hrun, if_true, Bool.true_and]
    by_cases hchg : (check_user_changed s.audio i.volReadOk i.deviceVolume i.now).2
    · simp only [hchg, if_true]
      split_ifs with hcd
      · refine ⟨by simp [hcd], fun _ => ⟨rfl, rfl, rfl⟩, fun hp _ => ?_⟩
        simp at hp
      · refine ⟨by simp [hcd, tickCore_published], ?_, fun hp hok => ?_⟩
        · intro hp
          rw [ui_update_published] at hp
          exact absurd hp (by simp)
        · refine ⟨ui_update_vol_ok _ _ hok, ui_update_peak_eq _ _ ?_⟩
          exact tickCore_sync _ _ _ _ hok
    · have hc2 : (check_user_changed s.audio i.volReadOk i.deviceVolume
          i.now).2 = false := by simpa using hchg
      simp only [hc2, Bool.false_eq_true, if_false]
      split_ifs with hcd
      · refine ⟨by simp [hcd], fun _ => ⟨rfl, rfl, rfl⟩, fun hp _ => ?_⟩
        simp at hp
      · refine ⟨by simp [hcd, tickCore_published], ?_, fun hp hok => ?_⟩
        · intro hp
          rw [ui_update_published] at hp
          exact absurd hp (by simp)
        · refine ⟨ui_update_vol_ok _ _ hok, ui_update_peak_eq _ _ ?_⟩
          exact tickCore_sync _ _ _ _ hok
  · have hrun' : s.is_running = false := by simpa using hrun
    simp [tick, hrun']

/-- C7 witness: an ordinary enabled tick republishes — `published` matches
the gate formula, and the snapshot agrees with the device volume and the
freshly computed raw peak. -/
theorem C7_telemetry_gates_witness :
    (tick (startState 1) cfgC1 ⟨1/40, 1, 1/2, true, true, true⟩).published
      = ((startState 1).is_running &&
        !cooldown_active
          ((check_user_changed (startState 1).audio true 1
              (1/40)).1.user_set_time) (1/40) cfgC1.user_cooldown) ∧
    (tick (startState 1) cfgC1 ⟨1/40, 1, 1/2, true, true, true⟩).published
      = true ∧
    (tick (startState 1) cfgC1 ⟨1/40, 1, 1/2, true, true, true⟩).ui_volume
      = (tick (startState 1) cfgC1 ⟨1/40, 1, 1/2, true, true, true⟩).device_volume ∧
    (tick (startState 1) cfgC1 ⟨1/40, 1, 1/2, true, true, true⟩).ui_peak
      = (get_raw_peak
          (tick (startState 1) cfgC1 ⟨1/40, 1, 1/2, true, true, true⟩).audio
          true (1/2)).1 := by
  have h := C7_telemetry_gates (startState 1) cfgC1 ⟨1/40, 1, 1/2, true, true, true⟩
  have hpub : (tick (startState 1) cfgC1
      ⟨1/40, 1, 1/2, true, true, true⟩).published = true := by
    rw [h.1]
    norm_num [startState, check_user_changed, get_volume, cooldown_active]
  exact ⟨h.1, hpub, (h.2.2 hpub rfl).1, (h.2.2 hpub rfl).2⟩

/-- C8 counterexample: a controller paused mid-attack
(`time_over_threshold = 0.03`) is disabled for one tick and re-enabled with
no audio event and no user change; `original_volume`, `is_limiting` and
`_last_set_volume` survive and nothing is written, but
`time_over_threshold` comes back as `0`, not `0.03`: `ControllerState` is
not left exactly as it was. -/
theorem C8_counterexample :
    (tick { startState 1 with
        time_over_threshold := 3/100, is_running := false } cfgC1 ⟨1/10, 1, 0, true, true, true⟩).original_volume
      = ({ startState 1 with time_over_threshold := 3/100 } : LState).original_volume ∧
    (tick { startState 1 with
        time_over_threshold := 3/100, is_running := false } cfgC1 ⟨1/10, 1, 0, true, true, true⟩).is_limiting
      = ({ startState 1 with time_over_threshold := 3/100 } : LState).is_limiting ∧
    (tick { startState 1 with
        time_over_threshold := 3/100, is_running := false } cfgC1 ⟨1/10, 1, 0, true, true, true⟩).audio.last_set_volume
      = ({ startState 1 with time_over_threshold := 3/100 } : LState).audio.last_set_volume ∧
    (tick { startState 1 with
        time_over_threshold := 3/100, is_running := false } cfgC1 ⟨1/10, 1, 0, true, true, true⟩).wrote = none ∧
    ({ startState 1 with time_over_threshold := 3/100 }
        : LState).time_over_threshold = 3/100 ∧
    (tick { startState 1 with
        time_over_threshold := 3/100, is_running := false } cfgC1 ⟨1/10, 1, 0, true, true, true⟩).time_over_threshold
      ≠ ({ startState 1 with time_over_threshold := 3/100 }
          : LState).time_over_threshold := by
  norm_num [tick, startState]

/-- C8 as amended: a disabled tick never writes to the device, leaves the
device volume, `original_volume`, `is_limiting` and the whole audio state
(including `_last_set_volume`) untouched, and resets `time_over_threshold`
to `0` — so disable→enable preserves `ControllerState` exactly whenever
`time_over_threshold` was already `0` before disabling (re-enabling itself
only flips the flag). -/
theorem C8_disabled_frame (s : LState) (c : Config) (i : TickInput)
    (hrun : s.is_running = false) :
    (tick s c i).original_volume = s.original_volume ∧
    (tick s c i).is_limiting = s.is_limiting ∧
    (tick s c i).audio = s.audio ∧
    (tick s c i).time_over_threshold = 0 ∧
    (tick s c i).wrote = none ∧
    (tick s c i).device_volume = i.deviceVolume ∧
    (s.time_over_threshold = 0 →
      (tick s c i).time_over_threshold = s.time_over_threshold) := by
  refine ⟨?_, ?_, ?_, ?_, ?_, ?_, fun h => by simp [tick, hrun, h]⟩ <;>
    simp [tick, hrun]

/-- C8 witness: a disabled idle tick at full volume. -/
theorem C8_disabled_frame_witness :
    (tick { startState 1 with is_running := false } cfgC1
        ⟨1/10, 1, 0, true, true, true⟩).original_volume
      = ({ startState 1 with is_running := false } : LState).original_volume ∧
    (tick { startState 1 with is_running := false } cfgC1
        ⟨1/10, 1, 0, true, true, true⟩).is_limiting
      = ({ startState 1 with is_running := false } : LState).is_limiting ∧
    (tick { startState 1 with is_running := false } cfgC1
        ⟨1/10, 1, 0, true, true, true⟩).audio
      = ({ startState 1 with is_running := false } : LState).audio ∧
    (tick { startState 1 with is_running := false } cfgC1
        ⟨1/10, 1, 0, true, true, true⟩).time_over_threshold = 0 ∧
    (tick { startState 1 with is_running := false } cfgC1
        ⟨1/10, 1, 0, true, true, true⟩).wrote = none ∧
    (tick { startState 1 with is_running := false } cfgC1
        ⟨1/10, 1, 0, true, true, true⟩).device_volume = 1 ∧
    (({ startState 1 with is_running := false } : LState).time_over_threshold
        = 0 →
      (tick { startState 1 with is_running := false } cfgC1
          ⟨1/10, 1, 0, true, true, true⟩).time_over_threshold
        = ({ startState 1 with is_running := false }
            : LState).time_over_threshold) :=
  C8_disabled_frame { startState 1 with is_running := false } cfgC1
    ⟨1/10, 1, 0, true, true, true⟩ rfl

/-- C4: hold and release.  On an enabled under-threshold tick with
`is_limiting` true (no user change detected, no cooldown, reads succeed,
volumes in range, time monotone): (a) while `now − lastOverThresholdAt ≤
holdTime` the tick writes no volume and leaves the device untouched;
(b) once the hold has elapsed and the current volume is more than `0.005`
below `originalVolume`, the tick writes
`min (current + releaseRate·dt) originalVolume` — never overshooting — and
keeps limiting; (c) once within `0.005` of `originalVolume` it writes
exactly `originalVolume` and clears `is_limiting`; and `releaseRate` is
`1/releaseTime` when `releaseTime > 0`, else `10.0`. -/
theorem C4_hold_release (s : LState) (c : Config) (i : TickInput)
    (hrun : s.is_running = true) (hok : i.volReadOk = true)
    (hnochg : ¬ (1/100 : ℚ) < |i.deviceVolume - s.audio.last_set_volume|)
    (hust : s.audio.user_set_time = none)
    (hlim : s.is_limiting = true)
    (hunder : ¬ (c.volume_cap <
        (get_raw_peak { s.audio with cached_volume := i.deviceVolume }
          i.peakReadOk i.meterPeak).1 * s.original_volume ∧
      (1/1000 : ℚ) <
        (get_raw_peak { s.audio with cached_volume := i.deviceVolume }
          i.peakReadOk i.meterPeak).1))
    (hdv : 0 ≤ i.deviceVolume) (horig0 : 0 ≤ s.original_volume)
    (horig1 : s.original_volume ≤ 1) (hdt : s.last_time ≤ i.now) :
    (i.now - s.last_over_threshold_time ≤ c.hold_time →
      (tick s c i).wrote = none ∧ (tick s c i).device_volume = i.deviceVolume) ∧
    (c.hold_time < i.now - s.last_over_threshold_time →
      (i.deviceVolume < s.original_volume - 5/1000 →
        (tick s c i).wrote = some (min
          (i.deviceVolume + (release_rate c.release_time).1 * (i.now - s.last_time))
          s.original_volume) ∧
        min (i.deviceVolume + (release_rate c.release_time).1 * (i.now - s.last_time))
          s.original_volume ≤ s.original_volume ∧
        (tick s c i).is_limiting = true) ∧
      (¬ i.deviceVolume < s.original_volume - 5/1000 →
        (tick s c i).wrote = some s.original_volume ∧
        (tick s c i).is_limiting = false)) ∧
    ((0 < c.release_time → (release_rate c.release_time).1 = 1 / c.release_time) ∧
      (¬ 0 < c.release_time → (release_rate c.release_time).1 = 10)) := by
  rw [tick_under_eq s c i hrun hok hnochg hust hunder]
  refine ⟨?_, ?_, ?_, ?_⟩
  · intro hhold
    rw [underTick_hold _ _ _ _ (by simp [midState, hlim])
      (by simpa [midState] using hhold)]
    simp [midState]
  · intro hhold
    constructor
    · intro hfar
      have h := underTick_release_far (midState s i) c i (i.now - s.last_time)
        (by simp [midState, hlim]) hok (by simpa [midState] using hhold)
        (by simpa [midState] using hfar) (by simpa [midState] using hdv)
        (by simpa [midState] using horig1) (by linarith)
      refine ⟨?_, ?_, ?_⟩
      · rw [ui_update_wrote]
        simpa [midState] using h.1
      · exact le_trans (min_le_right _ _) le_rfl
      · rw [ui_update_is_limiting]
        exact h.2.1
    · intro hnear
      have h := underTick_release_done (midState s i) c i (i.now - s.last_time)
        (by simp [midState, hlim]) hok (by simpa [midState] using hhold)
        (by simpa [midState] using hnear) (by simpa [midState] using horig0)
        (by simpa [midState] using horig1)
      refine ⟨?_, ?_⟩
      · rw [ui_update_wrote]
        simpa [midState] using h.1
      · rw [ui_update_is_limiting]
        exact h.2.1
  · intro h
    simp [release_rate, h]
  · intro h
    simp [release_rate, h]

/-- C4 witness: the release scenario — `1.1 s` past the last loud moment
(hold `0.15 s` elapsed), volume `0.4`, original `1`, `dt = 0.1 s`,
release rate `1/0.5 = 2`: the tick writes `min (0.4 + 2·0.1) 1 = 0.6`. -/
theorem C4_hold_release_witness :
    releaseState.original_volume = 1 ∧
    (tick releaseState cfgC1 ⟨21/10, 2/5, 0, true, true, true⟩).wrote
      = some (min ((2/5 : ℚ) + (release_rate cfgC1.release_time).1 * (21/10 - 2))
          releaseState.original_volume) ∧
    min ((2/5 : ℚ) + (release_rate cfgC1.release_time).1 * (21/10 - 2))
        releaseState.original_volume ≤ releaseState.original_volume ∧
    (tick releaseState cfgC1 ⟨21/10, 2/5, 0, true, true, true⟩).is_limiting
      = true ∧
    (release_rate cfgC1.release_time).1 = 1 / cfgC1.release_time := by
  have h := C4_hold_release releaseState cfgC1 ⟨21/10, 2/5, 0, true, true, true⟩
    rfl rfl (by norm_num [releaseState, startState]) rfl rfl
    (by norm_num [releaseState, startState, get_raw_peak, cfgC1, min_def])
    (by norm_num) (by norm_num [releaseState, startState])
    (by norm_num [releaseState, startState])
    (by norm_num [releaseState, startState])
  have h2 := (h.2.1 (by norm_num [releaseState, startState, cfgC1])).1
    (by norm_num [releaseState, startState])
  exact ⟨rfl, h2.1, h2.2.1, h2.2.2, h.2.2.1 (by norm_num [cfgC1])⟩

/-- C10: `set_volume` clamps every requested level to `[0, 1]` before
handing it to the device, so the device is never asked for an out-of-range
volume, and `_last_set_volume` and `_cached_volume` stay in `[0, 1]`
whenever they were in `[0, 1]` before the call. -/
theorem C10_set_volume_clamps (a : Audio) (ok : Bool) (level : ℚ) :
    (set_volume a ok level).2 = max 0 (min 1 level) ∧
    (0 ≤ (set_volume a ok level).2 ∧ (set_volume a ok level).2 ≤ 1) ∧
    (0 ≤ a.last_set_volume ∧ a.last_set_volume ≤ 1 →
      0 ≤ (set_volume a ok level).1.last_set_volume ∧
        (set_volume a ok level).1.last_set_volume ≤ 1) ∧
    (0 ≤ a.cached_volume ∧ a.cached_volume ≤ 1 →
      0 ≤ (set_volume a ok level).1.cached_volume ∧
        (set_volume a ok level).1.cached_volume ≤ 1) := by
  have h0 : (0 : ℚ) ≤ max 0 (min 1 level) := le_max_left 0 _
  have h1 : max 0 (min 1 level) ≤ 1 :=
    max_le (by norm_num) (min_le_left 1 level)
  refine ⟨rfl, ⟨h0, h1⟩, ?_, ?_⟩ <;> intro h <;> cases ok <;>
    simp only [set_volume] <;> exact ⟨by simp [h.1, h0], by simp [h.2, h1]⟩

/-- C10 witness: requesting the out-of-range level `1.7` results in the
clamped device request `1`. -/
theorem C10_set_volume_clamps_witness :
    (set_volume ⟨1, 1, none, 1⟩ true (17/10)).2 = max 0 (min 1 (17/10)) ∧
    (0 ≤ (set_volume ⟨1, 1, none, 1⟩ true (17/10)).2 ∧
      (set_volume ⟨1, 1, none, 1⟩ true (17/10)).2 ≤ 1) ∧
    (0 ≤ (⟨1, 1, none, 1⟩ : Audio).last_set_volume ∧
        (⟨1, 1, none, 1⟩ : Audio).last_set_volume ≤ 1 →
      0 ≤ (set_volume ⟨1, 1, none, 1⟩ true (17/10)).1.last_set_volume ∧
        (set_volume ⟨1, 1, none, 1⟩ true (17/10)).1.last_set_volume ≤ 1) ∧
    (0 ≤ (⟨1, 1, none, 1⟩ : Audio).cached_volume ∧
        (⟨1, 1, none, 1⟩ : Audio).cached_volume ≤ 1 →
      0 ≤ (set_volume ⟨1, 1, none, 1⟩ true (17/10)).1.cached_volume ∧
        (set_volume ⟨1, 1, none, 1⟩ true (17/10)).1.cached_volume ≤ 1) :=
  C10_set_volume_clamps ⟨1, 1, none, 1⟩ true (17/10)

end Tame
